import Mathlib

/-!
Shallow embedding of the core of `modrover` (files `src/modrover/learner.py`
and `src/modrover/rover.py`): the per-subset fit-and-score state machine
(`Learner`), and the orchestrator (`Rover`) with its exploration loop and
coefficient-ensembling algorithm.

Modelling conventions:
* Floating point numbers are embedded as `ℚ`; machine floats only matter to
  the claims through order comparisons and exact small arithmetic, which agree.
* A pandas `DataFrame` is an opaque handle (`Dataset := ℕ`); every operation
  the code performs on data goes through the external-collaborator interface
  `Env` (pandas `groupby`/`get_group`, the regmod model backend's design
  matrix, `np.linalg.matrix_rank`, the optimizer, `predict`, the observation
  column and the pluggable score function).  The backend (`regmod`) is an
  external dependency, not part of this repository; `Env` models the
  ModelBackend interface.
* Python exceptions are `Except Err _` (or a `RoverState × Option Err` pair
  where the mutated object state survives the exception).
* Python dicts are insertion-ordered association lists (`insertS` keeps the
  position of an existing key, appends a new one), matching dict semantics.
-/

/-- Python exceptions relevant to the embedded code. -/
inductive Err
  /-- `InvalidConfigurationError` from `modrover.exceptions`. -/
  | invalidConfig
  /-- `NotFittedError` from `modrover.exceptions`. -/
  | notFitted
  /-- `ValueError` (dimensional mismatches on `coef`/`vcov` assignment). -/
  | valueError
  /-- The error raised by the regmod backend when `model.predict` is invoked
  on a model whose `opt_coefs` is `None` (a regression model cannot produce
  predictions without a coefficient vector; coefficients are present only
  after a successful fit). -/
  | unfitPredict
  /-- pandas `KeyError` (e.g. `groupby(col).get_group(k)` with no group `k`). -/
  | keyError
deriving DecidableEq, Repr

/-- `learner.py` line 20: `class ModelStatus(Enum)`. -/
inductive ModelStatus
  | SUCCESS
  | SINGULAR
  | SOLVER_FAILED
  | NOT_FITTED
deriving DecidableEq, Repr

/-- `learner.py` line 17: `LearnerID = tuple[int, ...]` — a bare tuple type
alias (indices into the exploring-covariate list), embedded as a list. -/
abbrev LearnerID := List ℕ

/-- Constructing a `LearnerID` from an index collection is `tuple(xs)`:
the identity on the sequence of indices.  The alias performs no sorting and
no duplicate rejection (there is no canonicalizing constructor in the
current source). -/
def mkLearnerID (ids : List ℕ) : LearnerID := ids

/-- Opaque handle to a pandas `DataFrame`. -/
abbrev Dataset := ℕ

/-- A design (or covariance) matrix: list of rows of rationals. -/
abbrev Mat := List (List ℚ)

/-- `mat.shape[1]` of `model.mat[0]`: the column count of the (first) design
matrix. -/
def matCols (m : Mat) : ℕ := (m.headD []).length

/-- Parameter specifications: ordered mapping from parameter name to its
variable (covariate) names, mirroring `param_specs[param]["variables"]`. -/
abbrev ParamSpecs := List (String × List String)

/-- Number of coefficients of a model built from `ps`: one per variable per
parameter (regmod `model.size`). -/
def sizePS (ps : ParamSpecs) : ℕ := (ps.map (fun pv => pv.2.length)).sum

/-- The relevant state of a regmod model handle: its parameter specification,
its optional fitted coefficients / covariance (`opt_coefs` / `opt_vcov`) and
the data frame currently attached to its `Data` object (`attach_df` /
`detach_df`). -/
structure RegmodModel where
  spec : ParamSpecs
  optCoefs : Option (List ℚ)
  optVcov : Option Mat
  attached : Option Dataset
deriving DecidableEq, Repr

/-- regmod `model.size`: the coefficient count. -/
def RegmodModel.size (m : RegmodModel) : ℕ := sizePS m.spec

/-- External collaborators of the embedded code, gathered as one record:
pandas (`getGroup`), numpy (`matRank`), the regmod ModelBackend
(`designMat`, `optimize`, `predictVals`) and the pluggable score function
(`globals.get_rmse` by default, not under `src/`).  `optimize` is the
backend's `model.fit`, raising (`Except.error`) on any failure, returning
the optimized coefficients on success. -/
structure Env where
  getGroup : Dataset → String → ℕ → Except Err Dataset
  designMat : ParamSpecs → Dataset → Mat
  matRank : Mat → ℕ
  optimize : ParamSpecs → Dataset → Except Unit (List ℚ)
  predictVals : ParamSpecs → List ℚ → Dataset → List ℚ
  obsCol : Dataset → String → List ℚ
  scoreFn : List ℚ → List ℚ → ℚ

/-- `learner.py` `class Learner`: model specification, the wrapped regmod
model, current status, optional aggregate score, and per-holdout
cross-validation state (`_cv_models`, `_cv_scores`, `_cv_status` are
`defaultdict`s; embedded as insertion-ordered association lists holding the
keys actually assigned, with the defaultdict default applied on lookup). -/
structure Learner where
  paramSpecs : ParamSpecs
  obs : String
  offset : String
  weights : String
  model : RegmodModel
  score : Option ℚ
  status : ModelStatus
  cvModels : List (String × RegmodModel)
  cvScores : List (String × ℚ)
  cvStatus : List (String × ModelStatus)
deriving DecidableEq, Repr

/-- Ordered-dict association-list update: replace in place if the key is
present (keeping its position), append otherwise. -/
def insertS {α : Type} (m : List (String × α)) (k : String) (v : α) :
    List (String × α) :=
  match m with
  | [] => [(k, v)]
  | (k', v') :: rest =>
      if k' = k then (k, v) :: rest else (k', v') :: insertS rest k v

/-- Ordered-dict lookup. -/
def lookupS {α : Type} (m : List (String × α)) (k : String) : Option α :=
  match m with
  | [] => none
  | (k', v') :: rest => if k' = k then some v' else lookupS rest k

/-- `Learner._get_model`: a fresh regmod model for the learner's parameter
specification (nothing fitted, nothing attached).  The source also rebinds
`self.model` to the freshly created model as a side effect; that rebinding is
observationally irrelevant here because the embedded optimizer depends only
on the (identical) specification and the data. -/
def freshModel (ps : ParamSpecs) : RegmodModel :=
  { spec := ps, optCoefs := none, optVcov := none, attached := none }

/-- `Learner.__init__`: store the specification, build the null model, start
as `NOT_FITTED` with no score and empty cross-validation state. -/
def mkLearner (ps : ParamSpecs) (obs offset weights : String) : Learner :=
  { paramSpecs := ps, obs := obs, offset := offset, weights := weights,
    model := freshModel ps, score := none, status := ModelStatus.NOT_FITTED,
    cvModels := [], cvScores := [], cvStatus := [] }

/-- `Learner._fit` (`learner.py` lines 187–205): attach the data frame to the
model, read the design matrix `model.mat[0]`; if its numeric rank is below
its column count return `SINGULAR` without attempting optimization;
otherwise run the optimizer, mapping any raised failure to `SOLVER_FAILED`;
on success record the coefficients, detach the working data and return
`SUCCESS`.  Note the data is detached only on the `SUCCESS` path, exactly as
in the source. -/
def Learner._fit (env : Env) (m : RegmodModel) (data : Dataset) :
    RegmodModel × ModelStatus :=
  let m1 : RegmodModel := { m with attached := some data }
  let mat := env.designMat m1.spec data
  if env.matRank mat < matCols mat then
    (m1, ModelStatus.SINGULAR)
  else
    match env.optimize m1.spec data with
    | Except.error _ => (m1, ModelStatus.SOLVER_FAILED)
    | Except.ok c =>
        ({ m1 with optCoefs := some c, attached := none },
         ModelStatus.SUCCESS)

/-- `Learner.predict` (`learner.py` lines 207–223): predict with the given
model (defaulting to the learner's own), then detach the model's working
data.  The backend's `model.predict` needs the fitted coefficient vector
(`opt_coefs`); with none present it raises. -/
def Learner.predict (env : Env) (l : Learner) (data : Dataset)
    (mo : Option RegmodModel) : Except Err (RegmodModel × List ℚ) :=
  let model := mo.getD l.model
  match model.optCoefs with
  | none => Except.error Err.unfitPredict
  | some c =>
      let preds := env.predictVals model.spec c data
      Except.ok ({ model with attached := none }, preds)

/-- `Learner.evaluate` (`learner.py` lines 225–240):
`get_score(obs=data[obs], pred=predict(data, model))`. -/
def Learner.evaluate (env : Env) (l : Learner) (data : Dataset)
    (mo : Option RegmodModel) : Except Err (RegmodModel × ℚ) :=
  match Learner.predict env l data mo with
  | Except.error e => Except.error e
  | Except.ok (m, preds) =>
      Except.ok (m, env.scoreFn (env.obsCol data l.obs) preds)

/-- The cross-validation loop of `Learner.fit`: for each holdout column,
fit a private fold model on the rows grouped under `0`, and if that fold
succeeds, evaluate it on the rows grouped under `1` to record a fold score. -/
def Learner.cvLoop (env : Env) (data : Dataset) :
    List String → Learner → Except Err Learner
  | [], l => Except.ok l
  | h :: rest, l =>
      match env.getGroup data h 0 with
      | Except.error e => Except.error e
      | Except.ok g0 =>
          -- `self._cv_models[holdout]` on a defaultdict: existing model or a
          -- fresh one built by `_get_model`.
          let cvm := (lookupS l.cvModels h).getD (freshModel l.paramSpecs)
          let fitRes := Learner._fit env cvm g0
          let l1 : Learner :=
            { l with cvModels := insertS l.cvModels h fitRes.1,
                     cvStatus := insertS l.cvStatus h fitRes.2 }
          if fitRes.2 = ModelStatus.SUCCESS then
            match env.getGroup data h 1 with
            | Except.error e => Except.error e
            | Except.ok g1 =>
                match Learner.evaluate env l1 g1 (some fitRes.1) with
                | Except.error e => Except.error e
                | Except.ok (cvm2, s) =>
                    Learner.cvLoop env data rest
                      { l1 with cvModels := insertS l1.cvModels h cvm2,
                                cvScores := insertS l1.cvScores h s }
          else
            Learner.cvLoop env data rest l1

/-- `np.mean` over the fold scores; `np.mean([])` is NaN in numpy, embedded
as `none` (the spec leaves the zero-successful-folds score undefined). -/
def meanOpt (l : List ℚ) : Option ℚ :=
  if l.isEmpty then none else some (l.sum / (l.length : ℚ))

/-- The fold scores entering the aggregate score: the assigned `_cv_scores`
entries whose current `_cv_status` is `SUCCESS`. -/
def Learner.cvFoldScores (l : Learner) : List ℚ :=
  (l.cvScores.filter
    (fun p => lookupS l.cvStatus p.1 = some ModelStatus.SUCCESS)).map Prod.snd

/-- `Learner.fit` (`learner.py` lines 131–185).  Idempotent guard; if
holdout columns are given (a non-empty list — Python truthiness), run the
cross-validation loop and set the aggregate score to the mean of successful
fold scores; then fit the final model on the full data and record its status;
if no holdout columns were given, set the score to the in-sample evaluation
of the final model (performed whatever the final status is, as in the
source). -/
def Learner.fit (env : Env) (l : Learner) (data : Dataset)
    (holdouts : Option (List String)) : Except Err Learner :=
  if l.status ≠ ModelStatus.NOT_FITTED then Except.ok l
  else
    let hs := holdouts.getD []
    let pre : Except Err Learner :=
      if hs.isEmpty then Except.ok l
      else
        match Learner.cvLoop env data hs l with
        | Except.error e => Except.error e
        | Except.ok l1 =>
            Except.ok { l1 with score := meanOpt (Learner.cvFoldScores l1) }
    match pre with
    | Except.error e => Except.error e
    | Except.ok l1 =>
        let fitRes := Learner._fit env l1.model data
        let l2 : Learner := { l1 with model := fitRes.1, status := fitRes.2 }
        if hs.isEmpty then
          match Learner.evaluate env l2 data none with
          | Except.error e => Except.error e
          | Except.ok (m2, s) =>
              Except.ok { l2 with model := m2, score := some s }
        else
          Except.ok l2

/-- `coef` setter (`learner.py` lines 81–85): `ValueError` unless the
provided vector's length equals `model.size`. -/
def Learner.setCoef (l : Learner) (c : List ℚ) : Except Err Learner :=
  if c.length ≠ l.model.size then Except.error Err.valueError
  else Except.ok { l with model := { l.model with optCoefs := some c } }

/-- Ordered-dict update for the `LearnerID`-keyed learner cache. -/
def insertL (m : List (LearnerID × Learner)) (k : LearnerID) (v : Learner) :
    List (LearnerID × Learner) :=
  match m with
  | [] => [(k, v)]
  | (k', v') :: rest =>
      if k' = k then (k, v) :: rest else (k', v') :: insertL rest k v

/-- Ordered-dict lookup for the learner cache. -/
def lookupL (m : List (LearnerID × Learner)) (k : LearnerID) : Option Learner :=
  match m with
  | [] => none
  | (k', v') :: rest => if k' = k then some v' else lookupL rest k

/-- The `Rover` object state after `__init__` (configuration immutable
afterwards) plus the mutable learner cache and, after `fit`, the super
learner.  `paramSpecs` is the post-`_as_param_specs` specification: it lists
the model class's parameters in order, with the main parameter's variables
set to `cov_fixed` (the source reads the parameter order from
`model_class.param_names`; `_as_param_specs` aligns `param_specs` with it). -/
structure RoverState where
  obs : String
  covFixed : List String
  covExploring : List String
  mainParam : String
  paramSpecs : ParamSpecs
  offset : String
  weights : String
  holdouts : Option (List String)
  learners : List (LearnerID × Learner)
  superLearner : Option Learner
deriving DecidableEq, Repr

/-- `Rover._as_cov` (`rover.py` lines 156–165): raise
`InvalidConfigurationError` when the cardinality of
`set(cov_fixed) | set(cov_exploring)` differs from the sum of the two list
lengths; otherwise return the two lists. -/
def asCov (covFixed covExploring : List String) :
    Except Err (List String × List String) :=
  let lenSet := (covFixed.toFinset ∪ covExploring.toFinset).card
  let lenSum := covFixed.length + covExploring.length
  if lenSet ≠ lenSum then Except.error Err.invalidConfig
  else Except.ok (covFixed, covExploring)

/-- `Rover._get_param_specs` (`rover.py` lines 200–205): deep-copy the
parameter specs and extend the main parameter's variables with
`[cov_exploring[i] for i in learner_id]` (ids produced by the code are
always in range, so `getD` never falls back). -/
def getParamSpecs (st : RoverState) (id : LearnerID) : ParamSpecs :=
  st.paramSpecs.map (fun pv =>
    if pv.1 = st.mainParam then
      (pv.1, pv.2 ++ id.map (fun i => st.covExploring.getD i ""))
    else pv)

/-- `Rover._get_learner` (`rover.py` lines 207–219): return the cached
learner when present and `use_cache` holds; otherwise construct a fresh
`Learner` for the id's parameter specification. -/
def getLearner (st : RoverState) (id : LearnerID) (useCache : Bool) : Learner :=
  match lookupL st.learners id with
  | some l => if useCache then l
              else mkLearner (getParamSpecs st id) st.obs st.offset st.weights
  | none => mkLearner (getParamSpecs st id) st.obs st.offset st.weights

/-- A search strategy's public contract.  Modelled from the spec: the
`modrover.strategies` module (`get_strategy` and the Full/Forward/Backward
family) is not under `src/`; per §4.3 a strategy exposes a base frontier
`base_learner_id` and `get_next_layer(curr_layer, learners, **options)`
producing the next frontier from the current one and the fitted cache (the
filter options are folded into the function). -/
structure Strategy where
  base : LearnerID
  nextLayer : List LearnerID → List (LearnerID × Learner) → List LearnerID

/-- The inner loop body of `Rover._explore` (`rover.py` lines 238–243): for
each id of the current frontier, take the cached or fresh learner; if it is
`NOT_FITTED`, fit it and insert it into the cache.  An exception raised by
`learner.fit` propagates, leaving the cache as already built (the
`self.learners[learner_id] = learner` line of the failing id never runs). -/
def fitLayer (env : Env) (data : Dataset) :
    List LearnerID → RoverState → RoverState × Option Err
  | [], st => (st, none)
  | id :: rest, st =>
      let l := getLearner st id true
      if l.status = ModelStatus.NOT_FITTED then
        match Learner.fit env l data st.holdouts with
        | Except.error e => (st, some e)
        | Except.ok l1 =>
            fitLayer env data rest { st with learners := insertL st.learners id l1 }
      else fitLayer env data rest st

/-- The `while curr_ids` loop of `Rover._explore` for one strategy, with
explicit fuel (the source loop terminates only by the strategy producing an
empty frontier). -/
def exploreLoop (env : Env) (data : Dataset) (strat : Strategy) :
    ℕ → List LearnerID → RoverState → RoverState × Option Err
  | 0, _, st => (st, none)
  | Nat.succ fuel, currIds, st =>
      if currIds.isEmpty then (st, none)
      else
        match fitLayer env data currIds st with
        | (st1, some e) => (st1, some e)
        | (st1, none) =>
            exploreLoop env data strat fuel
              (strat.nextLayer currIds st1.learners) st1

/-- `Rover._explore` (`rover.py` lines 222–250): run each strategy to
exhaustion, starting from the singleton frontier `{strategy.base_learner_id}`,
against the shared learner cache. -/
def explore (env : Env) (st : RoverState) (data : Dataset) :
    List Strategy → ℕ → RoverState × Option Err
  | [], _ => (st, none)
  | strat :: rest, fuel =>
      match exploreLoop env data strat fuel [strat.base] st with
      | (st1, some e) => (st1, some e)
      | (st1, none) => explore env st1 data rest fuel

/-- Total coefficient count of the ensemble matrix
(`rover.py` lines 318–320): `len(cov_exploring) + Σ_param len(variables)`. -/
def numVarsOf (st : RoverState) : ℕ :=
  st.covExploring.length + sizePS st.paramSpecs

/-- `Rover._get_coef_index` (`rover.py` lines 328–337): walk the parameters
in order, collecting each parameter's variable positions; after the main
parameter's own variables, place the learner's exploring indices and advance
the pointer past the whole exploring block. -/
def getCoefIndex (st : RoverState) (id : LearnerID) : List ℕ :=
  (st.paramSpecs.foldl
    (fun (acc : List ℕ × ℕ) pv =>
      let ci := acc.1 ++ (List.range pv.2.length).map (fun k => k + acc.2)
      let ptr := acc.2 + pv.2.length
      if pv.1 = st.mainParam then
        (ci ++ id.map (fun i => i + ptr), ptr + st.covExploring.length)
      else (ci, ptr))
    ([], 0)).1

/-- `coef_mat[row, coef_index] = coef`: a length-`n` row of zeros with
`coef[k]` scattered to position `idx[k]`. -/
def scatterRow (n : ℕ) (idx : List ℕ) (coef : List ℚ) : List ℚ :=
  (List.range n).map (fun j =>
    match idx.indexOf? j with
    | some k => coef.getD k 0
    | none => 0)

/-- The learner ids kept for ensembling: cache entries with status
`SUCCESS`, in cache (dict) order. -/
def successIds (st : RoverState) : List LearnerID :=
  (st.learners.filter (fun p => p.2.status = ModelStatus.SUCCESS)).map Prod.fst

/-- The fitted coefficient vector of the cached learner at `id`
(`self.learners[learner_id].coef`; `SUCCESS` learners always carry one). -/
def coefOf (st : RoverState) (id : LearnerID) : List ℚ :=
  ((lookupL st.learners id).map (fun l => l.model.optCoefs.getD [])).getD []

/-- `Rover._get_coef_mat` (`rover.py` lines 300–326): the
(successful learners × total coefficient count) matrix, each row the
learner's coefficients scattered to its coefficient positions, zero
elsewhere. -/
def getCoefMat (st : RoverState) : List LearnerID × Mat :=
  let ids := successIds st
  (ids, ids.map (fun id => scatterRow (numVarsOf st) (getCoefIndex st id) (coefOf st id)))

/-- The score vector over the successful learners
(`np.array([self.learners[key].score for key in learner_ids])`; successful
learners carry a score). -/
def scoresOf (st : RoverState) : List ℚ :=
  (successIds st).map (fun id => ((lookupL st.learners id).bind Learner.score).getD 0)

/-- The value `weights[argsort[0]]` of `_get_super_weights`: the maximum
score. -/
def maxScore (s : List ℚ) : ℚ :=
  match s with
  | [] => 0
  | x :: xs => xs.foldl max x

/-- `int(np.floor(len(scores) * top_pct_learner)) + 1`
(`rover.py` line 348). -/
def numLearners (s : List ℚ) (tpl : ℚ) : ℕ :=
  (⌊(s.length : ℚ) * tpl⌋).toNat + 1

/-- The position of index `i` in `np.argsort(weights)[::-1]`: the number of
indices `j` strictly ahead of `i` in the descending order, ties broken (as
by a stable ascending argsort, reversed) in favour of the larger original
index.  `np.argsort`'s default sort leaves the order of tied scores
unspecified; this embedding fixes the stable order, and no claim depends on
the tie order. -/
def rankDesc (s : List ℚ) (i : ℕ) : ℕ :=
  ((List.range s.length).filter
    (fun j => s.getD i 0 < s.getD j 0 ∨ (s.getD j 0 = s.getD i 0 ∧ i < j))).length

/-- Index `i` survives both masks of `_get_super_weights` (`rover.py`
lines 347–349): its score reaches `best * (1 - top_pct_score)` and it is not
among `argsort[num_learners:]`. -/
def retained (s : List ℚ) (tps tpl : ℚ) (i : ℕ) : Bool :=
  decide (maxScore s * (1 - tps) ≤ s.getD i 0) &&
  decide (rankDesc s i < numLearners s tpl)

/-- The score vector after `weights[~indices] = 0.0` (`rover.py` line 351). -/
def rawWeights (s : List ℚ) (tps tpl : ℚ) : List ℚ :=
  (List.range s.length).map (fun i => if retained s tps tpl i then s.getD i 0 else 0)

/-- `Rover._get_super_weights` (`rover.py` lines 339–353): zero out the
scores failing either mask, then divide by the (post-zeroing) total
(`weights /= weights.sum()`). -/
def getSuperWeights (s : List ℚ) (tps tpl : ℚ) : List ℚ :=
  (rawWeights s tps tpl).map (fun w => w / (rawWeights s tps tpl).sum)

/-- `coef_mat.T.dot(weights)`: for each of the `n` coefficient columns, the
weighted sum of that column across the learner rows. -/
def matTdotVec (n : ℕ) (mat : Mat) (w : List ℚ) : List ℚ :=
  (List.range n).map (fun j =>
    (List.zipWith (fun wi row => wi * row.getD j 0) w mat).sum)

/-- `Rover._get_super_coef` (`rover.py` lines 265–298): validate the two
percentage options, then build the coefficient matrix, the score vector and
the ensemble weights, and return the weight–matrix product. -/
def getSuperCoef (st : RoverState) (tps tpl : ℚ) : Except Err (List ℚ) :=
  if tps > 1 ∨ tps < 0 then Except.error Err.invalidConfig
  else if tpl > 1 ∨ tpl < 0 then Except.error Err.invalidConfig
  else
    let mat := (getCoefMat st).2
    let scores := scoresOf st
    let weights := getSuperWeights scores tps tpl
    Except.ok (matTdotVec (numVarsOf st) mat weights)

/-- `Rover._get_super_learner` (`rover.py` lines 253–263): compute the
ensembled coefficients, construct a learner for the `LearnerID` of all
exploring covariates with `use_cache=False`, and inject the coefficients
through the `coef` setter. -/
def getSuperLearner (st : RoverState) (tps tpl : ℚ) : Except Err Learner :=
  match getSuperCoef st tps tpl with
  | Except.error e => Except.error e
  | Except.ok superCoef =>
      let superId : LearnerID := List.range st.covExploring.length
      let l := getLearner st superId false
      Learner.setCoef l superCoef

/-- `Rover.fit` (`rover.py` lines 84–126): explore with the given strategies,
then build and store the super learner.  The returned state carries the
learner cache as left by exploration; the second component is the call's
outcome (an uncaught exception or normal return). -/
def roverFit (env : Env) (st : RoverState) (data : Dataset)
    (strats : List Strategy) (fuel : ℕ) (tps tpl : ℚ) :
    RoverState × Except Err Unit :=
  match explore env st data strats fuel with
  | (st1, some e) => (st1, Except.error e)
  | (st1, none) =>
      match getSuperLearner st1 tps tpl with
      | Except.error e => (st1, Except.error e)
      | Except.ok l => ({ st1 with superLearner := some l }, Except.ok ())

/-- A backend environment whose design matrix is rank-deficient everywhere:
one column, numeric rank 0 (e.g. a duplicated/zero covariate column), so
every fit attempt is `SINGULAR`. -/
def envSing : Env :=
  { getGroup := fun d _ _ => Except.ok d,
    designMat := fun _ _ => [[1]],
    matRank := fun _ => 0,
    optimize := fun _ _ => Except.error (),
    predictVals := fun _ c _ => c,
    obsCol := fun _ _ => [0],
    scoreFn := fun _ _ => 0 }

/-- A benign backend environment: full-rank design matrices and an optimizer
that converges, returning a coefficient per model variable. -/
def envOK : Env :=
  { getGroup := fun d _ _ => Except.ok d,
    designMat := fun _ _ => [[1]],
    matRank := fun m => matCols m,
    optimize := fun ps _ => Except.ok (List.replicate (sizePS ps) 1),
    predictVals := fun _ c _ => c,
    obsCol := fun _ _ => [0],
    scoreFn := fun _ _ => 1 / 2 }

/-- A single-parameter learner over one fixed covariate. -/
def learner0 : Learner := mkLearner [("mu", ["intercept"])] "y" "offset" "weights"

/-- A `Rover` as configured by `__init__`: one fixed covariate, one exploring
covariate, a single model parameter `mu` (its variables already set to
`cov_fixed` by `_as_param_specs`), no holdouts, empty cache. -/
def st0 : RoverState :=
  { obs := "y", covFixed := ["intercept"], covExploring := ["x"],
    mainParam := "mu", paramSpecs := [("mu", ["intercept"])],
    offset := "offset", weights := "weights", holdouts := none,
    learners := [], superLearner := none }

/-- A minimal strategy: base frontier the empty subset (as Full/Forward
start), producing no further layer. -/
def strat0 : Strategy := { base := [], nextLayer := fun _ _ => [] }

/-- `Except` values are compared in witnesses; core does not derive this. -/
instance exceptDecEq {ε α : Type} [DecidableEq ε] [DecidableEq α] :
    DecidableEq (Except ε α) := fun x y =>
  match x, y with
  | Except.ok a, Except.ok b =>
      if h : a = b then isTrue (by rw [h])
      else isFalse (fun he => h (Except.ok.inj he))
  | Except.ok _, Except.error _ => isFalse (fun he => Except.noConfusion he)
  | Except.error _, Except.ok _ => isFalse (fun he => Except.noConfusion he)
  | Except.error e, Except.error f =>
      if h : e = f then isTrue (by rw [h])
      else isFalse (fun he => h (Except.error.inj he))


/-- `Learner._fit` only ever reports a terminal status. -/
theorem fit_model_status_terminal (env : Env) (m : RegmodModel) (d : Dataset) :
    (Learner._fit env m d).2 ≠ ModelStatus.NOT_FITTED := by
  unfold Learner._fit
  dsimp only
  split
  · simp
  · split <;> simp

/-- A normal return of `Learner.fit` always carries a terminal status. -/
theorem fit_ok_status_terminal (env : Env) (l : Learner) (d : Dataset)
    (hs : Option (List String)) (l' : Learner)
    (h : Learner.fit env l d hs = Except.ok l') :
    l'.status ≠ ModelStatus.NOT_FITTED := by
  unfold Learner.fit at h
  dsimp only at h
  split at h
  · rename_i hne
    cases h
    exact hne
  · rename_i hne
    split at h
    · exact absurd h (by simp)
    · rename_i l1 hpre
      split at h
      · split at h
        · exact absurd h (by simp)
        · cases h
          exact fit_model_status_terminal env l1.model d
      · cases h
        exact fit_model_status_terminal env l1.model d

/-- C2: the claim that a per-learner fit failure is never propagated as an
exception out of `Rover._explore` fails when no holdout columns are supplied:
at a rank-deficient dataset the final fit is recorded as `SINGULAR`, but
`Learner.fit` then unconditionally evaluates the unfitted final model
in-sample, which raises, and the exception propagates out of the exploration
loop (the cache line for the failing id never runs). -/
theorem c2_fit_failure_propagates_without_holdouts :
    (Learner._fit envSing learner0.model 0).2 = ModelStatus.SINGULAR ∧
    Learner.fit envSing learner0 0 none = Except.error Err.unfitPredict ∧
    fitLayer envSing 0 [[]] st0 = (st0, some Err.unfitPredict) :=
  of_decide_eq_true (by with_unfolding_all rfl)

/-- C3 (counterexample): `LearnerID` construction is `tuple(xs)`; the two
permutations `(0, 1)` and `(1, 0)` of the same index collection yield
unequal values, and a duplicated index collection is accepted unchanged
(no sorting, no duplicate rejection). -/
theorem c3_learner_id_permutation_counterexample :
    mkLearnerID [0, 1] ≠ mkLearnerID [1, 0] ∧ mkLearnerID [1, 1] = [1, 1] := by
  decide

/-- C3 (amended): two index collections construct equal `LearnerID` values
iff they are identical sequences; construction is the identity on the index
tuple, with no canonicalization. -/
theorem c3_learner_id_equality_is_sequence_equality (xs ys : List ℕ) :
    mkLearnerID xs = mkLearnerID ys ↔ xs = ys :=
  Iff.rfl

/-- C6: whenever the design matrix's numeric rank is below its column count,
`Learner._fit` reports `SINGULAR`, and its result does not depend on the
backend optimizer at all (the optimizer is never invoked). -/
theorem c6_rank_deficient_singular_skips_optimizer (env : Env)
    (m : RegmodModel) (d : Dataset)
    (h : env.matRank (env.designMat m.spec d) < matCols (env.designMat m.spec d)) :
    (Learner._fit env m d).2 = ModelStatus.SINGULAR ∧
    ∀ opt, Learner._fit { env with optimize := opt } m d = Learner._fit env m d := by
  constructor
  · unfold Learner._fit
    dsimp only
    rw [if_pos h]
  · intro opt
    unfold Learner._fit
    dsimp only
    rw [if_pos h, if_pos h]

/-- Witness for C6 at a concrete rank-deficient input. -/
theorem c6_witness :
    envSing.matRank (envSing.designMat learner0.model.spec 0) <
      matCols (envSing.designMat learner0.model.spec 0) ∧
    (Learner._fit envSing learner0.model 0).2 = ModelStatus.SINGULAR :=
  ⟨of_decide_eq_true (by with_unfolding_all rfl),
   (c6_rank_deficient_singular_skips_optimizer envSing learner0.model 0
     (of_decide_eq_true (by with_unfolding_all rfl))).1⟩

/-- C7: `Learner.fit` is idempotent — once the status is terminal, a further
call (with any data and any holdouts) returns immediately, leaving the
learner (status, score, coefficients, everything) unchanged. -/
theorem c7_learner_fit_idempotent (env : Env) (l : Learner) (data : Dataset)
    (holdouts : Option (List String)) (h : l.status ≠ ModelStatus.NOT_FITTED) :
    Learner.fit env l data holdouts = Except.ok l := by
  unfold Learner.fit
  rw [if_pos h]

/-- Witness for C7 on a concrete already-fitted learner. -/
theorem c7_witness :
    ({ learner0 with status := ModelStatus.SUCCESS } : Learner).status ≠
      ModelStatus.NOT_FITTED ∧
    Learner.fit envSing { learner0 with status := ModelStatus.SUCCESS } 0 none =
      Except.ok { learner0 with status := ModelStatus.SUCCESS } :=
  ⟨of_decide_eq_true (by with_unfolding_all rfl),
   c7_learner_fit_idempotent envSing { learner0 with status := ModelStatus.SUCCESS }
     0 none (of_decide_eq_true (by with_unfolding_all rfl))⟩

/-- C8 (counterexample): a fit whose outcome is `SINGULAR` returns with the
dataset still attached to the model — the working reference is not detached;
at the level of the public `fit` (with a holdout column, so the call returns
normally) the returned learner still holds the attached dataset. -/
theorem c8_detach_counterexample :
    (Learner._fit envSing learner0.model 0).2 = ModelStatus.SINGULAR ∧
    (Learner._fit envSing learner0.model 0).1.attached = some 0 ∧
    (Learner.fit envSing learner0 0 (some ["h"])).map
      (fun l => (l.status, l.model.attached)) =
      Except.ok (ModelStatus.SINGULAR, some 0) :=
  of_decide_eq_true (by with_unfolding_all rfl)

/-- C8 (amended): `Learner._fit` detaches the working data exactly on the
`SUCCESS` path and leaves it attached on `SINGULAR` and `SOLVER_FAILED`; a
`predict` call that completes detaches the working data of the model it
used. -/
theorem c8_detach_only_on_success (env : Env) (m : RegmodModel) (d : Dataset) :
    ((Learner._fit env m d).2 = ModelStatus.SUCCESS →
      (Learner._fit env m d).1.attached = none) ∧
    ((Learner._fit env m d).2 = ModelStatus.SINGULAR ∨
        (Learner._fit env m d).2 = ModelStatus.SOLVER_FAILED →
      (Learner._fit env m d).1.attached = some d) ∧
    (∀ (l : Learner) (mo : Option RegmodModel) (r : RegmodModel × List ℚ),
      Learner.predict env l d mo = Except.ok r → r.1.attached = none) := by
  refine ⟨?_, ?_, ?_⟩
  · unfold Learner._fit
    dsimp only
    split
    · simp
    · split <;> simp
  · unfold Learner._fit
    dsimp only
    split
    · simp
    · split <;> simp
  · intro l mo r h
    unfold Learner.predict at h
    dsimp only at h
    split at h
    · exact absurd h (by simp)
    · cases h
      rfl

/-- Witness for C8's amended statement: a successful fit at a concrete input
ends detached. -/
theorem c8_witness :
    (Learner._fit envOK learner0.model 0).2 = ModelStatus.SUCCESS ∧
    (Learner._fit envOK learner0.model 0).1.attached = none :=
  ⟨of_decide_eq_true (by with_unfolding_all rfl),
   (c8_detach_only_on_success envOK learner0.model 0).1
     (of_decide_eq_true (by with_unfolding_all rfl))⟩

/-- The cardinality test of `_as_cov` holds exactly when the concatenation of
the two covariate lists is duplicate-free. -/
theorem asCov_card_iff_nodup (f e : List String) :
    (f.toFinset ∪ e.toFinset).card = f.length + e.length ↔ (f ++ e).Nodup := by
  have hunion : f.toFinset ∪ e.toFinset = (f ++ e).toFinset := by
    rw [List.toFinset_append]
  rw [hunion, List.card_toFinset, ← List.length_append]
  constructor
  · intro h
    have heq := List.Sublist.eq_of_length (List.dedup_sublist (f ++ e)) h
    rw [← heq]
    exact List.nodup_dedup (f ++ e)
  · intro h
    rw [List.dedup_eq_self.mpr h]

/-- C10: `Rover._as_cov` raises `InvalidConfigurationError` exactly when the
fixed list has an internal duplicate, or the exploring list has one, or the
two lists overlap — equivalently whenever the union's cardinality differs
from the sum of the two lengths. -/
theorem c10_as_cov_rejects_duplicates_and_overlap (f e : List String) :
    asCov f e = Except.error Err.invalidConfig ↔
      (¬ f.Nodup ∨ ¬ e.Nodup ∨ ∃ x ∈ f, x ∈ e) := by
  by_cases hok : (f.toFinset ∪ e.toFinset).card = f.length + e.length
  · have hn := (asCov_card_iff_nodup f e).mp hok
    rw [List.nodup_append] at hn
    simp only [asCov, hok, ne_eq, not_true_eq_false, if_false, ite_false]
    constructor
    · intro h
      exact absurd h (by simp)
    · intro h
      rcases h with h | h | ⟨x, hx1, hx2⟩
      · exact absurd hn.1 h
      · exact absurd hn.2.1 h
      · exact absurd hx2 (hn.2.2 hx1)
  · have hn : ¬ (f ++ e).Nodup := fun h => hok ((asCov_card_iff_nodup f e).mpr h)
    rw [List.nodup_append] at hn
    simp only [asCov, hok, ne_eq, not_false_eq_true, if_true, ite_true]
    constructor
    · intro _
      by_cases h1 : f.Nodup
      · by_cases h2 : e.Nodup
        · right; right
          have hd : ¬ f.Disjoint e := fun hd => hn ⟨h1, h2, hd⟩
          unfold List.Disjoint at hd
          push_neg at hd
          obtain ⟨x, hx, he, _⟩ := hd
          exact ⟨x, hx, he⟩
        · right; left; exact h2
      · left; exact h1
    · intro _
      trivial

/-- The invariant of the Orchestrator cache: every stored learner has a
terminal outcome. -/
def cacheInv (m : List (LearnerID × Learner)) : Prop :=
  ∀ p ∈ m, p.2.status ≠ ModelStatus.NOT_FITTED

/-- Membership after an ordered-dict insert: the new binding or an old one. -/
theorem mem_insertL (m : List (LearnerID × Learner)) (k : LearnerID)
    (v : Learner) (p : LearnerID × Learner) (h : p ∈ insertL m k v) :
    p = (k, v) ∨ p ∈ m := by
  induction m with
  | nil =>
      unfold insertL at h
      rcases List.mem_singleton.mp h with h1
      exact Or.inl h1
  | cons q rest ih =>
      unfold insertL at h
      by_cases hk : q.1 = k
      · rw [if_pos hk] at h
        rcases List.mem_cons.mp h with h1 | h1
        · exact Or.inl h1
        · exact Or.inr (List.mem_cons_of_mem q h1)
      · rw [if_neg hk] at h
        rcases List.mem_cons.mp h with h1 | h1
        · exact Or.inr (h1 ▸ List.mem_cons_self q rest)
        · rcases ih h1 with h2 | h2
          · exact Or.inl h2
          · exact Or.inr (List.mem_cons_of_mem q h2)

/-- One frontier of `_explore` preserves the cache invariant: a learner is
inserted only right after `fit` returned normally on it. -/
theorem fitLayer_cacheInv (env : Env) (data : Dataset) (ids : List LearnerID)
    (st : RoverState) (h : cacheInv st.learners) :
    cacheInv (fitLayer env data ids st).1.learners := by
  induction ids generalizing st with
  | nil => exact h
  | cons id rest ih =>
      unfold fitLayer
      dsimp only
      split
      · rename_i hstatus
        rcases hfit : Learner.fit env (getLearner st id true) data st.holdouts with e | l1
        · exact h
        · apply ih
          intro p hp
          rcases mem_insertL st.learners id l1 p hp with h1 | h1
          · rw [h1]
            exact fit_ok_status_terminal env (getLearner st id true) data
              st.holdouts l1 hfit
          · exact h p h1
      · exact ih st h

/-- The frontier loop of `_explore` preserves the cache invariant. -/
theorem exploreLoop_cacheInv (env : Env) (data : Dataset) (strat : Strategy)
    (fuel : ℕ) (ids : List LearnerID) (st : RoverState)
    (h : cacheInv st.learners) :
    cacheInv (exploreLoop env data strat fuel ids st).1.learners := by
  induction fuel generalizing ids st with
  | zero => exact h
  | succ fuel ih =>
      unfold exploreLoop
      split
      · exact h
      · rcases hfl : fitLayer env data ids st with ⟨st1, e⟩
        have hinv : cacheInv st1.learners := by
          have h2 := fitLayer_cacheInv env data ids st h
          rw [hfl] at h2
          exact h2
        cases e with
        | none => simpa using ih (strat.nextLayer ids st1.learners) st1 hinv
        | some e => simpa using hinv

/-- C9: the Orchestrator-cache invariant — starting from a cache in which
every learner has a terminal outcome (in particular the empty cache built by
`__init__`), every learner stored in `Rover.learners` after `_explore` has a
terminal outcome (`SUCCESS`, `SINGULAR` or `SOLVER_FAILED`, never
`NOT_FITTED`), for any strategies, any fuel and any backend, and also when
exploration ends in an exception. -/
theorem c9_explore_cache_terminal (env : Env) (st : RoverState)
    (data : Dataset) (strats : List Strategy) (fuel : ℕ)
    (h : cacheInv st.learners) :
    cacheInv (explore env st data strats fuel).1.learners := by
  induction strats generalizing st with
  | nil => exact h
  | cons strat rest ih =>
      unfold explore
      rcases hel : exploreLoop env data strat fuel [strat.base] st with ⟨st1, e⟩
      have hinv : cacheInv st1.learners := by
        have h2 := exploreLoop_cacheInv env data strat fuel [strat.base] st h
        rw [hel] at h2
        exact h2
      cases e with
      | none => simpa using ih st1 hinv
      | some e => simpa using hinv

/-- Witness for C9: a concrete exploration (one strategy, one fitted
learner) ends with a cache of terminal learners. -/
theorem c9_witness : cacheInv (explore envOK st0 0 [strat0] 2).1.learners :=
  c9_explore_cache_terminal envOK st0 0 [strat0] 2
    (fun p hp => absurd hp (List.not_mem_nil p))

/-- C4 (counterexample): calling `Rover.fit` with `top_pct_score = 2`
(out of range) still performs the whole exploration phase — afterwards the
cache holds a freshly fitted learner — and only then raises the
configuration error; the check is not at `fit` entry and not before fitting
work. -/
theorem c4_pct_check_not_eager_counterexample :
    (roverFit envOK st0 0 [strat0] 2 2 1).1.learners.length = 1 ∧
    (roverFit envOK st0 0 [strat0] 2 2 1).2 = Except.error Err.invalidConfig :=
  of_decide_eq_true (by with_unfolding_all rfl)

/-- C4 (amended): with `top_pct_score` or `top_pct_learner` outside `[0,1]`,
`Rover.fit` always raises `InvalidConfigurationError` (never silently
corrected), but only from `_get_super_coef` during ensembling, after the
exploration phase has completely run: the returned state is exactly the
explored state, with no super learner stored. -/
theorem c4_pct_validated_after_explore (env : Env) (st : RoverState)
    (data : Dataset) (strats : List Strategy) (fuel : ℕ) (tps tpl : ℚ)
    (hbad : tps > 1 ∨ tps < 0 ∨ tpl > 1 ∨ tpl < 0)
    (hexp : (explore env st data strats fuel).2 = none) :
    roverFit env st data strats fuel tps tpl =
      ((explore env st data strats fuel).1, Except.error Err.invalidConfig) := by
  have hpair : explore env st data strats fuel =
      ((explore env st data strats fuel).1, none) := by
    rcases hx : explore env st data strats fuel with ⟨a, b⟩
    rw [hx] at hexp
    simp only at hexp
    rw [hexp]
  unfold roverFit
  rw [hpair]
  dsimp only
  unfold getSuperLearner getSuperCoef
  by_cases h1 : tps > 1 ∨ tps < 0
  · rw [if_pos h1]
  · have h2 : tpl > 1 ∨ tpl < 0 := by tauto
    rw [if_neg h1, if_pos h2]

/-- Witness for C4's amended statement at a concrete out-of-range input. -/
theorem c4_witness :
    ((2:ℚ) > 1 ∨ (2:ℚ) < 0 ∨ (1:ℚ) > 1 ∨ (1:ℚ) < 0) ∧
    roverFit envOK st0 0 [strat0] 2 2 1 =
      ((explore envOK st0 0 [strat0] 2).1, Except.error Err.invalidConfig) :=
  ⟨Or.inl (by norm_num),
   c4_pct_validated_after_explore envOK st0 0 [strat0] 2 2 1
     (Or.inl (by norm_num)) (of_decide_eq_true (by with_unfolding_all rfl))⟩

/-- Dividing every list element distributes over the list sum. -/
theorem sum_map_div (l : List ℚ) (T : ℚ) :
    (l.map (fun x => x / T)).sum = l.sum / T := by
  induction l with
  | nil => simp
  | cons x xs ih => simp [ih, add_div]

/-- Reading an in-range position of a mapped range. -/
theorem getD_range_map (f : ℕ → ℚ) (n i : ℕ) (h : i < n) :
    ((List.range n).map f).getD i 0 = f i := by
  have hlen : i < ((List.range n).map f).length := by simpa using h
  rw [List.getD_eq_getElem _ _ hlen]
  simp

/-- C1 (counterexample): at scores `[0, 4/5]` with `top_pct_score = 1`,
`top_pct_learner = 1`, index `0` passes both retention conditions of the
claim (score `0 ≥ best × (1−1) = 0`, rank within `⌊2·1⌋+1`), yet its weight
is `0`, not non-zero: the full weight vector is `[0, 1]`. -/
theorem c1_zero_score_counterexample :
    retained [0, 4/5] 1 1 0 = true ∧
    (getSuperWeights [0, 4/5] 1 1).getD 0 0 = 0 ∧
    getSuperWeights [0, 4/5] 1 1 = [0, 1] :=
  of_decide_eq_true (by with_unfolding_all rfl)

/-- C1 (amended): for a non-empty score vector whose post-mask total is
non-zero, `_get_super_weights` gives each retained learner its raw score
divided by the total of retained raw scores and every other learner `0`
(so the weights sum to `1`, and a learner's weight is non-zero iff it is
retained AND its raw score is non-zero); on the spec's example
`[0, 0.2, 0.4, 0.6, 0.8]` with `top_pct_score = 0`, `top_pct_learner = 1`
only the highest scorer receives weight `1`. -/
theorem c1_super_weights_renormalize_retained (s : List ℚ) (tps tpl : ℚ)
    (_hne : s ≠ []) (hT : (rawWeights s tps tpl).sum ≠ 0) :
    getSuperWeights s tps tpl =
      (List.range s.length).map (fun i =>
        if retained s tps tpl i then s.getD i 0 / (rawWeights s tps tpl).sum
        else 0) ∧
    (getSuperWeights s tps tpl).sum = 1 ∧
    (∀ i, i < s.length →
      ((getSuperWeights s tps tpl).getD i 0 ≠ 0 ↔
        (retained s tps tpl i = true ∧ s.getD i 0 ≠ 0))) ∧
    getSuperWeights [0, 1/5, 2/5, 3/5, 4/5] 0 1 = [0, 0, 0, 0, 1] := by
  have hmain : getSuperWeights s tps tpl =
      (List.range s.length).map (fun i =>
        if retained s tps tpl i then s.getD i 0 / (rawWeights s tps tpl).sum
        else 0) := by
    unfold getSuperWeights
    rw [rawWeights, List.map_map]
    apply List.map_congr_left
    intro i _
    simp only [Function.comp]
    split
    · rfl
    · exact zero_div _
  refine ⟨hmain, ?_, ?_, ?_⟩
  · unfold getSuperWeights
    rw [sum_map_div]
    exact div_self hT
  · intro i hi
    rw [hmain, getD_range_map _ _ _ hi]
    split
    · rename_i hr
      simp only [hr, true_and]
      rw [div_ne_zero_iff]
      constructor
      · intro h
        exact h.1
      · intro h
        exact ⟨h, hT⟩
    · rename_i hr
      simp [hr]
  · exact of_decide_eq_true (by with_unfolding_all rfl)

/-- Witness for C1's amended statement at the concrete score vector `[1]`. -/
theorem c1_witness :
    ([(1:ℚ)] ≠ []) ∧ (rawWeights [1] 0 1).sum ≠ 0 ∧
    (getSuperWeights [1] 0 1).sum = 1 :=
  ⟨by simp, of_decide_eq_true (by with_unfolding_all rfl),
   (c1_super_weights_renormalize_retained [1] 0 1 (by simp)
     (of_decide_eq_true (by with_unfolding_all rfl))).2.1⟩

/-- Reading back a string list through `getD` over its index range. -/
theorem map_getD_range (l : List String) :
    (List.range l.length).map (fun i => l.getD i "") = l := by
  induction l with
  | nil => simp
  | cons a t ih =>
      rw [List.length_cons, List.range_succ_eq_map, List.map_cons, List.map_map]
      simp only [List.getD_cons_zero]
      refine congrArg (List.cons a) ?_
      have hcongr : List.map ((fun i => (a :: t).getD i "") ∘ Nat.succ)
          (List.range t.length) =
          List.map (fun i => t.getD i "") (List.range t.length) := by
        apply List.map_congr_left
        intro i _
        simp [Function.comp, List.getD_cons_succ]
      rw [hcongr, ih]

/-- Extending one parameter's variable list grows the coefficient count by
the extension length times the parameter's multiplicity. -/
theorem sizePS_extend (main : String) (ext : List String) (l : ParamSpecs) :
    sizePS (l.map (fun pv => if pv.1 = main then (pv.1, pv.2 ++ ext) else pv)) =
      sizePS l + ext.length * (l.map Prod.fst).count main := by
  induction l with
  | nil => simp [sizePS]
  | cons pv t ih =>
      by_cases h : pv.1 = main
      · simp only [sizePS, List.map_cons, List.sum_cons, if_pos h,
          List.count_cons, beq_iff_eq, List.length_append] at ih ⊢
        rw [ih]
        ring
      · simp only [sizePS, List.map_cons, List.sum_cons, if_neg h,
          List.count_cons, beq_iff_eq] at ih ⊢
        rw [ih]
        ring

/-- The coefficient count of the learner built for `id`. -/
theorem sizePS_getParamSpecs (st : RoverState) (id : LearnerID)
    (hm : (st.paramSpecs.map Prod.fst).count st.mainParam = 1) :
    sizePS (getParamSpecs st id) = sizePS st.paramSpecs + id.length := by
  unfold getParamSpecs
  rw [sizePS_extend st.mainParam (id.map (fun i => st.covExploring.getD i "")) st.paramSpecs]
  rw [hm, List.length_map]
  ring

/-- `coef_mat.T.dot(weights)` has one entry per coefficient column. -/
theorem matTdotVec_length (n : ℕ) (mat : Mat) (w : List ℚ) :
    (matTdotVec n mat w).length = n := by
  simp [matTdotVec]

/-- C5: with valid percentage options and a well-formed configuration (the
main parameter occurs exactly once in the parameter specs, as `__init__`
guarantees), `Rover._get_super_learner` returns exactly a freshly
constructed learner for the `LearnerID` of all exploring covariates —
independent of anything in the cache — still `NOT_FITTED` (no optimization
run), with the ensembled coefficient vector injected; each injected
coefficient is the weighted sum of that coefficient column across the
successful learners, with no per-column renormalization. -/
theorem c5_super_learner_fresh_injected (st : RoverState) (tps tpl : ℚ)
    (h1 : ¬(tps > 1 ∨ tps < 0)) (h2 : ¬(tpl > 1 ∨ tpl < 0))
    (hm : (st.paramSpecs.map Prod.fst).count st.mainParam = 1) :
    getSuperLearner st tps tpl = Except.ok
      { mkLearner (getParamSpecs st (List.range st.covExploring.length))
          st.obs st.offset st.weights with
        model := { freshModel (getParamSpecs st (List.range st.covExploring.length)) with
          optCoefs := some (matTdotVec (numVarsOf st) (getCoefMat st).2
            (getSuperWeights (scoresOf st) tps tpl)) } } ∧
    (mkLearner (getParamSpecs st (List.range st.covExploring.length))
        st.obs st.offset st.weights).status = ModelStatus.NOT_FITTED ∧
    (∀ cache, getLearner { st with learners := cache }
        (List.range st.covExploring.length) false =
      mkLearner (getParamSpecs st (List.range st.covExploring.length))
        st.obs st.offset st.weights) ∧
    (∀ j, j < numVarsOf st →
      (matTdotVec (numVarsOf st) (getCoefMat st).2
        (getSuperWeights (scoresOf st) tps tpl)).getD j 0 =
      (List.zipWith (fun wi row => wi * row.getD j 0)
        (getSuperWeights (scoresOf st) tps tpl) (getCoefMat st).2).sum) := by
  have hbypass : ∀ cache, getLearner { st with learners := cache }
      (List.range st.covExploring.length) false =
      mkLearner (getParamSpecs st (List.range st.covExploring.length))
        st.obs st.offset st.weights := by
    intro cache
    unfold getLearner
    cases lookupL cache (List.range st.covExploring.length) with
    | none => rfl
    | some l => rfl
  have hsize :
      (matTdotVec (numVarsOf st) (getCoefMat st).2
        (getSuperWeights (scoresOf st) tps tpl)).length =
      (mkLearner (getParamSpecs st (List.range st.covExploring.length))
        st.obs st.offset st.weights).model.size := by
    rw [matTdotVec_length]
    show numVarsOf st = RegmodModel.size _
    unfold RegmodModel.size mkLearner freshModel numVarsOf
    dsimp only
    rw [sizePS_getParamSpecs st _ hm, List.length_range]
    ring
  refine ⟨?_, rfl, hbypass, ?_⟩
  · unfold getSuperLearner getSuperCoef
    rw [if_neg h1, if_neg h2]
    dsimp only
    have hg : getLearner st (List.range st.covExploring.length) false =
        mkLearner (getParamSpecs st (List.range st.covExploring.length))
          st.obs st.offset st.weights := by
      have h := hbypass st.learners
      simpa using h
    rw [hg]
    unfold Learner.setCoef
    rw [if_neg (by simp [hsize])]
    rfl
  · intro j hj
    unfold matTdotVec
    rw [getD_range_map _ _ _ hj]

/-- A successfully fitted cached learner over `intercept` and the exploring
covariate `x`, with coefficients `[2, 3]` and score `1/2`. -/
def learnerW : Learner :=
  { mkLearner [("mu", ["intercept", "x"])] "y" "offset" "weights" with
      status := ModelStatus.SUCCESS,
      score := some (1/2),
      model := { spec := [("mu", ["intercept", "x"])], optCoefs := some [2, 3],
                 optVcov := none, attached := none } }

/-- `st0` with its cache holding `learnerW` under id `(0,)`. -/
def stW : RoverState := { st0 with learners := [([0], learnerW)] }

/-- Witness for C5 on a concrete explored state with one successful
learner. -/
theorem c5_witness :
    getSuperLearner stW 0 1 = Except.ok
      { mkLearner (getParamSpecs stW (List.range stW.covExploring.length))
          stW.obs stW.offset stW.weights with
        model := { freshModel (getParamSpecs stW (List.range stW.covExploring.length)) with
          optCoefs := some (matTdotVec (numVarsOf stW) (getCoefMat stW).2
            (getSuperWeights (scoresOf stW) 0 1)) } } :=
  (c5_super_learner_fresh_injected stW 0 1 (by norm_num) (by norm_num)
    (by decide)).1

/-- Witness for C3's amended statement: distinct sequences give distinct
`LearnerID` values by the equality characterization. -/
theorem c3_witness : mkLearnerID [0, 2] ≠ mkLearnerID [2, 0] :=
  fun h =>
    (by decide : ¬([0, 2] = ([2, 0] : List ℕ)))
      ((c3_learner_id_equality_is_sequence_equality [0, 2] [2, 0]).mp h)

/-- Witness for C10: an overlap between the two lists triggers the
configuration error. -/
theorem c10_witness : asCov ["a"] ["a", "b"] = Except.error Err.invalidConfig :=
  (c10_as_cov_rejects_duplicates_and_overlap ["a"] ["a", "b"]).mpr
    (Or.inr (Or.inr ⟨"a", by simp, by simp⟩))
